import Mathlib

/-!
Shallow embedding of the financial-integrity core of the `voloai-backend`
stay-booking marketplace, together with theorems checking the repository's
natural-language specification against the code.

Conventions of the embedding:
* Python `str` values become `String`, Python unbounded `int` money amounts
  become `Int`, database ids (UUIDs) become `Nat`.
* `Decimal` arithmetic is modelled exactly as rational arithmetic over
  integers: a two-decimal-place rate such as `Decimal("9.00")` is stored as
  the integer 900 (hundredths of a percent), and
  `Decimal.quantize(Decimal("1"))` (which rounds to an integer using the
  default context rounding, ROUND_HALF_EVEN) becomes `roundHalfEven`.
* A Python function that can `raise` becomes a function into
  `Except DomainError _`; raising aborts the enclosing transaction, so an
  `error` result carries no mutated state.
* The SQLAlchemy session is modelled by explicit lists of rows; `db.add`
  appends a row, `select ... where` becomes `List.find?` / `List.filter`.
* Wall-clock timestamps (`datetime.now`, `effective_date`, `completed_at`)
  and the audit log are not modelled: no claim under consideration refers
  to them.
-/

namespace Volo

/-- Errors raised by the embedded code. `validationError` models
`app.core.exceptions.ValidationError`, `notFoundError` models
`NotFoundError`, `valueError` models a plain Python `ValueError`, and
`duplicateOperation` models `app.core.idempotency.IdempotencyError`
(a subclass of `ValidationError` in the source). -/
inductive DomainError where
  | validationError (detail : String)
  | notFoundError (resource : String) (identifier : String)
  | valueError (msg : String)
  | duplicateOperation (operation : String) (entityId : String)
deriving DecidableEq, Repr

/-- True exactly on successful results. -/
def exceptOk {ε α : Type} : Except ε α → Bool
  | .ok _ => true
  | .error _ => false

/-! ## Commission service (`app/services/commission_service.py`) -/

/-- Round the exact rational `n / d` (with `d > 0`) to an integer using
banker's rounding, i.e. Python `Decimal`'s default context rounding
ROUND_HALF_EVEN as applied by `.quantize(Decimal("1"))`. -/
def roundHalfEven (n : Int) (d : Int) : Int :=
  let q := n / d
  let r := n % d
  if 2 * r < d then q
  else if d < 2 * r then q + 1
  else if q % 2 = 0 then q else q + 1

/-- Booking source types (`class BookingSource(str, Enum)`). -/
inductive BookingSource where
  | AIRBNB
  | BOOKING_COM
  | VOLO_MARKETPLACE
  | DIRECT_LINK
  | DIRECT_WHATSAPP
deriving DecidableEq, Repr

/-- Flat VOLO commission rate `Decimal("9.00")`, stored in hundredths of a
percent. -/
def voloCommissionRate : Int := 900

/-- The `COMMISSION_RATES` table, in hundredths of a percent. -/
def commissionRates : BookingSource → Int
  | .AIRBNB => 0
  | .BOOKING_COM => 0
  | .VOLO_MARKETPLACE => voloCommissionRate
  | .DIRECT_LINK => 0
  | .DIRECT_WHATSAPP => 0

/-- The `BookingSource(source)` enum constructor applied to a string:
`some` on the five recognized values, `none` (a `ValueError` in Python)
otherwise. -/
def parseBookingSource (s : String) : Option BookingSource :=
  if s = "AIRBNB" then some .AIRBNB
  else if s = "BOOKING_COM" then some .BOOKING_COM
  else if s = "VOLO_MARKETPLACE" then some .VOLO_MARKETPLACE
  else if s = "DIRECT_LINK" then some .DIRECT_LINK
  else if s = "DIRECT_WHATSAPP" then some .DIRECT_WHATSAPP
  else none

/-- `CommissionService.get_commission_rate` on an enum argument. -/
def getCommissionRate (source : BookingSource) : Int :=
  commissionRates source

/-- `CommissionService.get_commission_rate` on a string argument: parse
failures default to the marketplace rate. -/
def getCommissionRateStr (s : String) : Int :=
  match parseBookingSource s with
  | some source => getCommissionRate source
  | none => voloCommissionRate

/-- `CommissionService.calculate_commission` on an enum argument:
`(Decimal(total_amount) * rate / Decimal("100")).quantize(Decimal("1"))`,
i.e. half-even rounding of `total_amount * (rate100 / 100) / 100`. -/
def calculateCommission (source : BookingSource) (totalAmount : Int) : Int :=
  roundHalfEven (getCommissionRate source * totalAmount) 10000

/-- `CommissionService.calculate_commission` on a string argument. -/
def calculateCommissionStr (s : String) (totalAmount : Int) : Int :=
  roundHalfEven (getCommissionRateStr s * totalAmount) 10000

/-- Result dict of `CommissionService.calculate_booking_amounts`.
`commission_rate` is kept in hundredths of a percent (the dict stores
`float(commission_rate)`). -/
structure BookingAmounts where
  nightly_rate : Int
  nights : Int
  subtotal : Int
  cleaning_fee : Int
  service_fee : Int
  total_price : Int
  commission_rate : Int
  commission_amount : Int
  host_payout_amount : Int
deriving DecidableEq, Repr

/-- `CommissionService.calculate_booking_amounts` on a string source. -/
def calculateBookingAmounts (source : String) (nightlyRate : Int)
    (nights : Int) (cleaningFee : Int) : BookingAmounts :=
  let subtotal := nightlyRate * nights
  let totalPrice := subtotal + cleaningFee
  let commissionRate := getCommissionRateStr source
  let commissionAmount := calculateCommissionStr source totalPrice
  let hostPayout := totalPrice - commissionAmount
  { nightly_rate := nightlyRate
    nights := nights
    subtotal := subtotal
    cleaning_fee := cleaningFee
    service_fee := 0
    total_price := totalPrice
    commission_rate := commissionRate
    commission_amount := commissionAmount
    host_payout_amount := hostPayout }

/-- Round-half-up of `n / d` (with `d > 0`) to an integer. This definition
follows the SPEC's words ("round(total × rate/100) using round-half-up to
the unit"), for comparison with the implementation's rounding; it is not
taken from the source. -/
def roundHalfUpOfSpec (n : Int) (d : Int) : Int :=
  let q := n / d
  let r := n % d
  if d ≤ 2 * r then q + 1 else q

/-! ## Cancellation policy (`app/domain/cancellation_policy.py`) -/

/-- Cancellation policy types (`class CancellationPolicy(str, Enum)`). -/
inductive CancellationPolicy where
  | FLEXIBLE
  | MODERATE
  | STRICT
deriving DecidableEq, Repr

/-- The `CancellationPolicy(policy)` enum constructor applied to a string. -/
def parseCancellationPolicy (s : String) : Option CancellationPolicy :=
  if s = "flexible" then some .FLEXIBLE
  else if s = "moderate" then some .MODERATE
  else if s = "strict" then some .STRICT
  else none

/-- The `POLICY_RULES` table: ordered `(min days before check-in, refund
percent)` thresholds, first match wins. Percentages are the integer values
of the `Decimal` literals. -/
def policyRules : CancellationPolicy → List (Int × Nat)
  | .FLEXIBLE => [(1, 100), (0, 50)]
  | .MODERATE => [(5, 100), (1, 50), (0, 0)]
  | .STRICT => [(7, 50), (0, 0)]

/-- The `for min_days, refund_pct in rules` loop of
`calculate_refund_percentage`: first rule whose threshold is met wins,
default 0. -/
def firstMatchingRule (rules : List (Int × Nat)) (daysBefore : Int) : Nat :=
  match rules with
  | [] => 0
  | (minDays, pct) :: rest =>
    if minDays ≤ daysBefore then pct else firstMatchingRule rest daysBefore

/-- `calculate_refund_percentage`. Dates are modelled as day ordinals, so
`(check_in_date - cancellation_date).days` becomes integer subtraction.
Unknown policy strings default to moderate. -/
def calculateRefundPercentage (policy : String) (checkInDate : Int)
    (cancellationDate : Int) : Nat :=
  let p := (parseCancellationPolicy policy).getD .MODERATE
  let daysBefore := checkInDate - cancellationDate
  firstMatchingRule (policyRules p) daysBefore

/-! ## State machines (`app/domain/*_state.py`) -/

/-- The `BOOKING_TRANSITIONS` table; `dict.get(current, set())` becomes a
total function with default `[]`. -/
def bookingTransitions (current : String) : List String :=
  if current = "pending" then ["confirmed", "cancelled"]
  else if current = "confirmed" then ["checked_in", "cancelled"]
  else if current = "checked_in" then ["completed"]
  else if current = "completed" then []
  else if current = "cancelled" then []
  else []

/-- `assert_booking_transition`: raises `ValidationError` iff the target is
not in the allowed set; pure, so no side effect on failure. -/
def assertBookingTransition (current : String) (target : String) :
    Except DomainError Unit :=
  if target ∈ bookingTransitions current then .ok ()
  else .error (.validationError
    ("Invalid booking transition: " ++ current ++ " → " ++ target))

/-- The `PAYMENT_TRANSITIONS` table. -/
def paymentTransitions (current : String) : List String :=
  if current = "pending" then ["processing", "completed", "failed"]
  else if current = "processing" then ["completed", "failed"]
  else if current = "completed" then ["refunded"]
  else if current = "failed" then []
  else if current = "refunded" then []
  else []

/-- `assert_payment_transition`. -/
def assertPaymentTransition (current : String) (target : String) :
    Except DomainError Unit :=
  if target ∈ paymentTransitions current then .ok ()
  else .error (.validationError
    ("Invalid payment transition: " ++ current ++ " → " ++ target))

/-- The `PAYOUT_TRANSITIONS` table. -/
def payoutTransitions (current : String) : List String :=
  if current = "pending" then ["eligible", "reversed"]
  else if current = "eligible" then ["released", "reversed"]
  else if current = "released" then ["reversed"]
  else if current = "reversed" then []
  else []

/-- `assert_payout_transition`. -/
def assertPayoutTransition (current : String) (target : String) :
    Except DomainError Unit :=
  if target ∈ payoutTransitions current then .ok ()
  else .error (.validationError
    ("Invalid payout transition: " ++ current ++ " → " ++ target))

/-- The `DISPUTE_TRANSITIONS` table. -/
def disputeTransitions (current : String) : List String :=
  if current = "opened" then ["under_review", "resolved"]
  else if current = "under_review" then ["resolved", "opened"]
  else if current = "resolved" then ["reversed"]
  else if current = "reversed" then []
  else []

/-- `assert_dispute_transition`. -/
def assertDisputeTransition (current : String) (target : String) :
    Except DomainError Unit :=
  if target ∈ disputeTransitions current then .ok ()
  else .error (.validationError
    ("Invalid dispute transition: " ++ current ++ " → " ++ target))

/-- `can_release_payout` (`app/domain/payout_state.py`): the cross-entity
release guard. Returns `(can_release, error_message)`; the caller
(`app/api/v1/payouts.py`) raises a `ValidationError` — a domain validation
failure, not a state-table error — when the first component is false. -/
def canReleasePayout (bookingStatus : String) (paymentStatus : String) :
    Bool × Option String :=
  if bookingStatus = "cancelled" then
    (false, some "Cannot release payout for cancelled booking")
  else if paymentStatus = "refunded" ∨ paymentStatus = "partially_refunded" then
    (false, some "Cannot release payout for refunded booking")
  else if paymentStatus ≠ "paid" then
    (false, some "Cannot release payout - payment not completed")
  else if ¬ (bookingStatus = "completed" ∨ bookingStatus = "checked_in") then
    (false, some ("Cannot release payout - booking status is " ++ bookingStatus))
  else
    (true, none)

/-! ## Data model rows (`app/models/*.py`), restricted to the fields the
financial core reads or writes. -/

/-- A `Booking` row. -/
structure Booking where
  id : Nat
  booking_number : String
  listing_id : Nat
  guest_id : Nat
  host_id : Nat
  source : String
  status : String
  payment_status : String
  check_in : Int
  check_out : Int
  nights : Int
  nightly_rate : Int
  subtotal : Int
  cleaning_fee : Int
  service_fee : Int
  taxes : Int
  total_price : Int
  commission_rate : Int
  commission_amount : Int
  host_payout_amount : Int
  refund_amount : Int
  currency : String
deriving DecidableEq, Repr

/-- A `Payment` row. -/
structure Payment where
  id : Nat
  booking_id : Nat
  user_id : Nat
  amount : Int
  currency : String
  payment_method : String
  gateway : Option String
  gateway_transaction_id : Option String
  status : String
deriving DecidableEq, Repr

/-- A `Refund` row. -/
structure Refund where
  id : Nat
  booking_id : Nat
  payment_id : Nat
  amount : Int
  reason : String
  status : String
  gateway_refund_id : Option String
deriving DecidableEq, Repr

/-- A `HostPayout` row. -/
structure HostPayout where
  id : Nat
  host_id : Nat
  booking_id : Option Nat
  amount : Int
  currency : String
  payout_date : Int
  status : String
  payout_method : Option String
  gateway_transaction_id : Option String
deriving DecidableEq, Repr

/-- A `SettlementLedgerEntry` row (append-only). -/
structure SettlementLedgerEntry where
  entry_type : String
  direction : String
  amount : Int
  currency : String
  booking_id : Option Nat
  payment_id : Option Nat
  refund_id : Option Nat
  payout_id : Option Nat
  counterparty_type : String
  counterparty_id : Option Nat
  gateway : Option String
  gateway_transaction_id : Option String
  description : String
deriving DecidableEq, Repr

/-- A `BookingFinancialSnapshot` row (immutable, one per booking). -/
structure BookingFinancialSnapshot where
  booking_id : Nat
  booking_number : String
  guest_total : Int
  guest_subtotal : Int
  guest_cleaning_fee : Int
  guest_service_fee : Int
  guest_taxes : Int
  commission_rate : Int
  commission_amount : Int
  host_payout_amount : Int
  currency : String
  check_in : Int
  check_out : Int
  nights : Int
  nightly_rate : Int
  guest_id : Nat
  host_id : Nat
  listing_id : Nat
  source : String
deriving DecidableEq, Repr

/-! ## Settlement service (`app/services/settlement_service.py`) -/

/-- `assert_positive_amount`: prevent negative or zero amounts. -/
def assertPositiveAmount (amount : Int) (context : String) :
    Except DomainError Unit :=
  if amount ≤ 0 then
    .error (.validationError
      (context ++ ": amount must be positive, got " ++ toString amount))
  else .ok ()

/-- `assert_no_duplicate_ledger_entry`: prevent duplicate ledger entries
for the same operation. -/
def assertNoDuplicateLedgerEntry (existing : Option SettlementLedgerEntry)
    (entryType : String) (referenceId : Nat) : Except DomainError Unit :=
  match existing with
  | some _ => .error (.validationError
      ("Duplicate " ++ entryType ++ " ledger entry for reference "
        ++ toString referenceId))
  | none => .ok ()

/-- Selection predicate of the duplicate guard in
`record_payment_received`: entries whose `payment_id` matches and whose
`entry_type` is `payment_received`. -/
def isPaymentReceivedFor (paymentId : Nat) (e : SettlementLedgerEntry) :
    Bool :=
  e.payment_id == some paymentId && e.entry_type == "payment_received"

/-- Selection predicate of the duplicate guard in `record_refund_issued`. -/
def isRefundIssuedFor (refundId : Nat) (e : SettlementLedgerEntry) : Bool :=
  e.refund_id == some refundId && e.entry_type == "refund_issued"

/-- Selection predicate of the duplicate guard in
`record_payout_released`. -/
def isPayoutReleasedFor (payoutId : Nat) (e : SettlementLedgerEntry) :
    Bool :=
  e.payout_id == some payoutId && e.entry_type == "payout_released"

/-- Selection predicate of the duplicate guard in
`record_payout_reversed`. -/
def isPayoutReversedFor (payoutId : Nat) (e : SettlementLedgerEntry) :
    Bool :=
  e.payout_id == some payoutId && e.entry_type == "payout_reversed"

/-- Number of ledger entries matching a predicate. -/
def ledgerCountBy (db : List SettlementLedgerEntry)
    (p : SettlementLedgerEntry → Bool) : Nat :=
  db.countP p

/-- Sum of the amounts of the ledger entries matching a predicate. -/
def ledgerSumBy (db : List SettlementLedgerEntry)
    (p : SettlementLedgerEntry → Bool) : Int :=
  ((db.filter p).map SettlementLedgerEntry.amount).sum

/-- `SettlementService.record_payment_received`. On success the new entry
is prepended to the ledger (`db.add`); list order is irrelevant to every
sum or count below. -/
def recordPaymentReceived (db : List SettlementLedgerEntry)
    (payment : Payment) (booking : Booking) :
    Except DomainError (List SettlementLedgerEntry) :=
  match assertPositiveAmount payment.amount "Payment" with
  | .error e => .error e
  | .ok _ =>
    match assertNoDuplicateLedgerEntry
        (db.find? (isPaymentReceivedFor payment.id))
        "payment_received" payment.id with
    | .error e => .error e
    | .ok _ => .ok (
        { entry_type := "payment_received"
          direction := "credit"
          amount := payment.amount
          currency := payment.currency
          booking_id := some booking.id
          payment_id := some payment.id
          refund_id := none
          payout_id := none
          counterparty_type := "guest"
          counterparty_id := some payment.user_id
          gateway := payment.gateway
          gateway_transaction_id := payment.gateway_transaction_id
          description := "Payment for booking " ++ booking.booking_number
          } :: db)

/-- `SettlementService.record_refund_issued`. -/
def recordRefundIssued (db : List SettlementLedgerEntry) (refund : Refund)
    (booking : Booking) (payment : Payment) :
    Except DomainError (List SettlementLedgerEntry) :=
  match assertPositiveAmount refund.amount "Refund" with
  | .error e => .error e
  | .ok _ =>
    match assertNoDuplicateLedgerEntry
        (db.find? (isRefundIssuedFor refund.id))
        "refund_issued" refund.id with
    | .error e => .error e
    | .ok _ => .ok (
        { entry_type := "refund_issued"
          direction := "debit"
          amount := refund.amount
          currency := payment.currency
          booking_id := some booking.id
          payment_id := some payment.id
          refund_id := some refund.id
          payout_id := none
          counterparty_type := "guest"
          counterparty_id := some payment.user_id
          gateway := payment.gateway
          gateway_transaction_id := refund.gateway_refund_id
          description := "Refund for booking " ++ booking.booking_number
            ++ ": " ++ refund.reason
          } :: db)

/-- `SettlementService.record_payout_released`. -/
def recordPayoutReleased (db : List SettlementLedgerEntry)
    (payout : HostPayout) (booking : Option Booking) :
    Except DomainError (List SettlementLedgerEntry) :=
  match assertPositiveAmount payout.amount "Payout" with
  | .error e => .error e
  | .ok _ =>
    match assertNoDuplicateLedgerEntry
        (db.find? (isPayoutReleasedFor payout.id))
        "payout_released" payout.id with
    | .error e => .error e
    | .ok _ =>
      let description := match booking with
        | some b => "Payout for booking " ++ b.booking_number
        | none => "Payout to host"
      .ok (
        { entry_type := "payout_released"
          direction := "debit"
          amount := payout.amount
          currency := payout.currency
          booking_id := payout.booking_id
          payment_id := none
          refund_id := none
          payout_id := some payout.id
          counterparty_type := "host"
          counterparty_id := some payout.host_id
          gateway := payout.payout_method
          gateway_transaction_id := payout.gateway_transaction_id
          description := description
          } :: db)

/-- `SettlementService.record_payout_reversed`: money comes back to the
platform, hence a credit. -/
def recordPayoutReversed (db : List SettlementLedgerEntry)
    (payout : HostPayout) (booking : Option Booking) :
    Except DomainError (List SettlementLedgerEntry) :=
  match assertPositiveAmount payout.amount "Payout reversal" with
  | .error e => .error e
  | .ok _ =>
    match assertNoDuplicateLedgerEntry
        (db.find? (isPayoutReversedFor payout.id))
        "payout_reversed" payout.id with
    | .error e => .error e
    | .ok _ =>
      let description := match booking with
        | some b => "Payout reversal for booking " ++ b.booking_number
        | none => "Payout reversal"
      .ok (
        { entry_type := "payout_reversed"
          direction := "credit"
          amount := payout.amount
          currency := payout.currency
          booking_id := payout.booking_id
          payment_id := none
          refund_id := none
          payout_id := some payout.id
          counterparty_type := "host"
          counterparty_id := some payout.host_id
          gateway := none
          gateway_transaction_id := none
          description := description
          } :: db)

/-- The snapshot row built by `SettlementService.create_booking_snapshot`:
every financial field of the booking copied by value. -/
def createBookingSnapshotRow (booking : Booking) :
    BookingFinancialSnapshot :=
  { booking_id := booking.id
    booking_number := booking.booking_number
    guest_total := booking.total_price
    guest_subtotal := booking.subtotal
    guest_cleaning_fee := booking.cleaning_fee
    guest_service_fee := booking.service_fee
    guest_taxes := booking.taxes
    commission_rate := booking.commission_rate
    commission_amount := booking.commission_amount
    host_payout_amount := booking.host_payout_amount
    currency := booking.currency
    check_in := booking.check_in
    check_out := booking.check_out
    nights := booking.nights
    nightly_rate := booking.nightly_rate
    guest_id := booking.guest_id
    host_id := booking.host_id
    listing_id := booking.listing_id
    source := booking.source }

/-- `SettlementService.create_booking_snapshot`: fails with a `ValueError`
if a snapshot already exists for the booking; otherwise returns the new
snapshot row (the caller appends it to the session). -/
def createBookingSnapshot (snapshots : List BookingFinancialSnapshot)
    (booking : Booking) : Except DomainError BookingFinancialSnapshot :=
  if (snapshots.find? (fun s => s.booking_id == booking.id)).isSome then
    .error (.valueError
      ("Snapshot already exists for booking " ++ toString booking.id))
  else
    .ok (createBookingSnapshotRow booking)

/-- `SettlementService.check_ledger_balance`: sums all credit amounts and
all debit amounts and reports `(imbalance >= 0, imbalance)`. -/
def checkLedgerBalance (db : List SettlementLedgerEntry) : Bool × Int :=
  let totalCredits := ledgerSumBy db (fun e => e.direction == "credit")
  let totalDebits := ledgerSumBy db (fun e => e.direction == "debit")
  let imbalance := totalCredits - totalDebits
  (decide (0 ≤ imbalance), imbalance)

/-- Repeat a record attempt `n` times, keeping the ledger produced by
successful attempts and discarding failed ones (a raise aborts the
transaction, leaving the ledger as it was). -/
def iterateRecord
    (step : List SettlementLedgerEntry →
      Except DomainError (List SettlementLedgerEntry)) :
    Nat → List SettlementLedgerEntry → List SettlementLedgerEntry
  | 0, db => db
  | n + 1, db =>
    match step db with
    | .ok db2 => iterateRecord step n db2
    | .error _ => iterateRecord step n db

/-! ## Idempotency guard (`app/core/idempotency.py`) -/

/-- An idempotency key. `generate_idempotency_key` SHA-256-hashes the
canonical JSON of `(operation, entity_id, params)`; the hash is modelled by
the (injectively encoded) triple itself. -/
structure IdemKey where
  operation : String
  entityId : Nat
  params : List (String × String)
deriving DecidableEq, Repr

/-- `generate_idempotency_key`. -/
def generateIdempotencyKey (operation : String) (entityId : Nat)
    (params : List (String × String)) : IdemKey :=
  { operation := operation, entityId := entityId, params := params }

/-! ## Transactional world state

One value of `World` is the visible database plus the in-process
idempotency store. Each endpoint embeds as `World → Except DomainError
World`; a raised exception aborts the enclosing transaction, so an `error`
result carries no mutated state. `nextId` models the generation of fresh
row ids. -/

structure World where
  bookings : List Booking
  payments : List Payment
  refunds : List Refund
  payouts : List HostPayout
  ledger : List SettlementLedgerEntry
  snapshots : List BookingFinancialSnapshot
  idemKeys : List IdemKey
  nextId : Nat
deriving DecidableEq, Repr

/-- Apply `f` to every element selected by `sel` (an in-place ORM mutation
of the selected rows). -/
def updateWhere {α : Type} (sel : α → Bool) (f : α → α) (l : List α) :
    List α :=
  l.map (fun a => if sel a then f a else a)

/-- Python-truthiness encoding of the optional refund amount, used in the
refund idempotency key. -/
def optAmountStr : Option Int → String
  | none => "null"
  | some a => toString a

/-! ## Endpoints (`app/api/v1/payments.py`, `bookings.py`, `payouts.py`) -/

/-- `mark_payment_paid` (`app/api/v1/payments.py`): idempotency check,
payment state transition `→ completed`, cross-domain cancelled-booking
guard, payment/booking mutation, `record_payment_received` ledger entry,
idempotency store. The audit log entry is not modelled. -/
def markPaymentPaid (w : World) (paymentId : Nat) :
    Except DomainError World :=
  let idemKey := generateIdempotencyKey "payment_mark_paid" paymentId []
  if idemKey ∈ w.idemKeys then
    .error (.duplicateOperation "payment_mark_paid" (toString paymentId))
  else
    match w.payments.find? (fun p => p.id == paymentId) with
    | none => .error (.notFoundError "Payment" (toString paymentId))
    | some payment =>
      match assertPaymentTransition payment.status "completed" with
      | .error e => .error e
      | .ok _ =>
        match w.bookings.find? (fun b => b.id == payment.booking_id) with
        | none => .error (.notFoundError "Booking"
            (toString payment.booking_id))
        | some booking =>
          if booking.status = "cancelled" then
            .error (.validationError
              "Cannot mark payment as paid for a cancelled booking")
          else
            let payment2 : Payment := { payment with status := "completed" }
            let booking2 : Booking :=
              { booking with payment_status := "paid" }
            match recordPaymentReceived w.ledger payment2 booking2 with
            | .error e => .error e
            | .ok ledger2 => .ok
                { w with
                  payments := updateWhere (fun p => p.id == paymentId)
                    (fun p => { p with status := "completed" }) w.payments
                  bookings := updateWhere (fun b => b.id == booking.id)
                    (fun b => { b with payment_status := "paid" }) w.bookings
                  ledger := ledger2
                  idemKeys := idemKey :: w.idemKeys }

/-- `check_in_booking` (`app/api/v1/bookings.py`): booking transition
`→ checked_in`, gated on the payment being complete. -/
def checkInBooking (w : World) (bookingId : Nat) :
    Except DomainError World :=
  match w.bookings.find? (fun b => b.id == bookingId) with
  | none => .error (.notFoundError "Booking" (toString bookingId))
  | some booking =>
    match assertBookingTransition booking.status "checked_in" with
    | .error e => .error e
    | .ok _ =>
      if booking.payment_status ≠ "paid" then
        .error (.validationError "Payment must be completed before check-in")
      else .ok
        { w with
          bookings := updateWhere (fun b => b.id == bookingId)
            (fun b => { b with status := "checked_in" }) w.bookings }

/-- `complete_booking` (`app/api/v1/bookings.py`): booking transition
`→ completed`, creation of the pending host payout when the payment is
complete and no payout exists yet, and creation of the one immutable
financial snapshot. -/
def completeBooking (w : World) (bookingId : Nat) :
    Except DomainError World :=
  match w.bookings.find? (fun b => b.id == bookingId) with
  | none => .error (.notFoundError "Booking" (toString bookingId))
  | some booking =>
    match assertBookingTransition booking.status "completed" with
    | .error e => .error e
    | .ok _ =>
      let booking2 : Booking := { booking with status := "completed" }
      let payoutsNext : List HostPayout × Nat :=
        if booking2.payment_status = "paid" then
          if (w.payouts.find?
              (fun po => po.booking_id == some bookingId)).isSome then
            (w.payouts, w.nextId)
          else
            ({ id := w.nextId
               host_id := booking2.host_id
               booking_id := some bookingId
               amount := booking2.host_payout_amount
               currency := booking2.currency
               payout_date := booking2.check_out
               status := "pending"
               payout_method := none
               gateway_transaction_id := none } :: w.payouts, w.nextId + 1)
        else (w.payouts, w.nextId)
      match createBookingSnapshot w.snapshots booking2 with
      | .error e => .error e
      | .ok snapshot => .ok
          { w with
            bookings := updateWhere (fun b => b.id == bookingId)
              (fun b => { b with status := "completed" }) w.bookings
            payouts := payoutsNext.1
            nextId := payoutsNext.2
            snapshots := snapshot :: w.snapshots }

/-- `mark_payout_eligible` (`app/api/v1/payouts.py`): payout transition
`→ eligible`, plus the cross-entity release guard when a booking is
linked. -/
def markPayoutEligible (w : World) (payoutId : Nat) :
    Except DomainError World :=
  match w.payouts.find? (fun po => po.id == payoutId) with
  | none => .error (.notFoundError "Payout" (toString payoutId))
  | some payout =>
    match assertPayoutTransition payout.status "eligible" with
    | .error e => .error e
    | .ok _ =>
      let guard : Except DomainError Unit :=
        match payout.booking_id with
        | none => .ok ()
        | some bid =>
          match w.bookings.find? (fun b => b.id == bid) with
          | none => .ok ()
          | some booking =>
            match canReleasePayout booking.status booking.payment_status with
            | (true, _) => .ok ()
            | (false, msg) => .error (.validationError (msg.getD "None"))
      match guard with
      | .error e => .error e
      | .ok _ => .ok
          { w with
            payouts := updateWhere (fun po => po.id == payoutId)
              (fun po => { po with status := "eligible" }) w.payouts }

/-- `release_payout` (`app/api/v1/payouts.py`): idempotency check, payout
transition `→ released`, final cross-entity release guard,
`record_payout_released` ledger entry, idempotency store. -/
def releasePayout (w : World) (payoutId : Nat) :
    Except DomainError World :=
  let idemKey := generateIdempotencyKey "payout_release" payoutId []
  if idemKey ∈ w.idemKeys then
    .error (.duplicateOperation "payout_release" (toString payoutId))
  else
    match w.payouts.find? (fun po => po.id == payoutId) with
    | none => .error (.notFoundError "Payout" (toString payoutId))
    | some payout =>
      match assertPayoutTransition payout.status "released" with
      | .error e => .error e
      | .ok _ =>
        let bookingOpt : Option Booking :=
          match payout.booking_id with
          | none => none
          | some bid => w.bookings.find? (fun b => b.id == bid)
        let guard : Except DomainError Unit :=
          match bookingOpt with
          | none => .ok ()
          | some booking =>
            match canReleasePayout booking.status booking.payment_status with
            | (true, _) => .ok ()
            | (false, msg) => .error (.validationError (msg.getD "None"))
        match guard with
        | .error e => .error e
        | .ok _ =>
          let payout2 : HostPayout := { payout with status := "released" }
          match recordPayoutReleased w.ledger payout2 bookingOpt with
          | .error e => .error e
          | .ok ledger2 => .ok
              { w with
                payouts := updateWhere (fun po => po.id == payoutId)
                  (fun po => { po with status := "released" }) w.payouts
                ledger := ledger2
                idemKeys := idemKey :: w.idemKeys }

/-- `reverse_payout` (`app/api/v1/payouts.py`): idempotency check, payout
transition `→ reversed`, `record_payout_reversed` ledger entry,
idempotency store. -/
def reversePayout (w : World) (payoutId : Nat) :
    Except DomainError World :=
  let idemKey := generateIdempotencyKey "payout_reverse" payoutId []
  if idemKey ∈ w.idemKeys then
    .error (.duplicateOperation "payout_reverse" (toString payoutId))
  else
    match w.payouts.find? (fun po => po.id == payoutId) with
    | none => .error (.notFoundError "Payout" (toString payoutId))
    | some payout =>
      match assertPayoutTransition payout.status "reversed" with
      | .error e => .error e
      | .ok _ =>
        let bookingOpt : Option Booking :=
          match payout.booking_id with
          | none => none
          | some bid => w.bookings.find? (fun b => b.id == bid)
        let payout2 : HostPayout := { payout with status := "reversed" }
        match recordPayoutReversed w.ledger payout2 bookingOpt with
        | .error e => .error e
        | .ok ledger2 => .ok
            { w with
              payouts := updateWhere (fun po => po.id == payoutId)
                (fun po => { po with status := "reversed" }) w.payouts
              ledger := ledger2
              idemKeys := idemKey :: w.idemKeys }

/-- `refund_payment` (`app/api/v1/payments.py`): idempotency check (keyed
on amount and reason), payment transition `→ refunded`, refund-amount cap
checks, refund row creation, `record_refund_issued` ledger entry,
payment/booking mutation, and payout reversal or proportional reduction.
The external gateway call is not modelled (it only supplies the stored
`gateway_refund_id`, and the modelled payments carry no gateway
transaction); the partial-refund commission arithmetic, written with
Python floats, is modelled as exact integer arithmetic truncated toward
zero. -/
def refundPayment (w : World) (paymentId : Nat) (reqAmount : Option Int)
    (reason : String) : Except DomainError World :=
  let idemKey := generateIdempotencyKey "refund_create" paymentId
    [("amount", optAmountStr reqAmount), ("reason", reason)]
  if idemKey ∈ w.idemKeys then
    .error (.duplicateOperation "refund_create" (toString paymentId))
  else
    match w.payments.find? (fun p => p.id == paymentId) with
    | none => .error (.notFoundError "Payment" (toString paymentId))
    | some payment =>
      match assertPaymentTransition payment.status "refunded" with
      | .error e => .error e
      | .ok _ =>
        match w.bookings.find? (fun b => b.id == payment.booking_id) with
        | none => .error (.notFoundError "Booking"
            (toString payment.booking_id))
        | some booking =>
          let refundAmount := match reqAmount with
            | some a => if a == 0 then payment.amount else a
            | none => payment.amount
          if payment.amount < refundAmount then
            .error (.validationError "Refund amount exceeds payment amount")
          else
            let totalRefunded :=
              ((w.refunds.filter (fun r => r.payment_id == paymentId)).map
                Refund.amount).sum
            if payment.amount < totalRefunded + refundAmount then
              .error (.validationError
                ("Total refunds (" ++ toString (totalRefunded + refundAmount)
                  ++ ") would exceed payment amount ("
                  ++ toString payment.amount ++ ")"))
            else
              let refund : Refund :=
                { id := w.nextId
                  booking_id := booking.id
                  payment_id := payment.id
                  amount := refundAmount
                  reason := reason
                  status := "approved"
                  gateway_refund_id := none }
              match recordRefundIssued w.ledger refund booking payment with
              | .error e => .error e
              | .ok ledger2 =>
                let isFullRefund :=
                  booking.total_price ≤ totalRefunded + refundAmount
                let newPaymentStatus : String :=
                  if isFullRefund then "refunded" else "partially_refunded"
                let payouts2 := updateWhere
                  (fun po => po.booking_id == some booking.id)
                  (fun po =>
                    if isFullRefund then
                      if po.status = "pending" ∨ po.status = "eligible"
                          ∨ po.status = "released" then
                        { po with status := "reversed" }
                      else po
                    else
                      let refundCommission :=
                        refundAmount * booking.commission_rate / 10000
                      let payoutReduction := refundAmount - refundCommission
                      { po with amount := max 0 (po.amount - payoutReduction) })
                  w.payouts
                .ok
                  { w with
                    payments := updateWhere (fun p => p.id == paymentId)
                      (fun p => { p with status := "refunded" }) w.payments
                    bookings := updateWhere (fun b => b.id == booking.id)
                      (fun b => { b with
                        refund_amount := totalRefunded + refundAmount
                        payment_status := newPaymentStatus }) w.bookings
                    refunds := refund :: w.refunds
                    payouts := payouts2
                    ledger := ledger2
                    idemKeys := idemKey :: w.idemKeys
                    nextId := w.nextId + 1 }

/-! ## Auxiliary counting helpers used by the theorems -/

/-- Number of snapshot rows for a given booking. -/
def snapshotCount (snaps : List BookingFinancialSnapshot) (bookingId : Nat) :
    Nat :=
  snaps.countP (fun s => s.booking_id == bookingId)

/-- Sum of the recorded refund amounts against one payment. -/
def refundSumFor (refunds : List Refund) (paymentId : Nat) : Int :=
  ((refunds.filter (fun r => r.payment_id == paymentId)).map
    Refund.amount).sum

/-! ## A concrete run of the valid-operation sequence used for the ledger
non-negativity claim: one marketplace booking of 10000 (commission 900,
host payout 9100), paid, checked in, completed, payout released, then
fully refunded. Every step succeeds, so this is a sequence of valid core
operations in the claim's sense. -/

/-- The booking of the concrete run. -/
def run0Booking : Booking :=
  { id := 1, booking_number := "BK-1", listing_id := 20, guest_id := 10,
    host_id := 11, source := "VOLO_MARKETPLACE", status := "confirmed",
    payment_status := "pending", check_in := 100, check_out := 103,
    nights := 3, nightly_rate := 3000, subtotal := 9000,
    cleaning_fee := 1000, service_fee := 0, taxes := 0,
    total_price := 10000, commission_rate := 900, commission_amount := 900,
    host_payout_amount := 9100, refund_amount := 0, currency := "PKR" }

/-- The processing payment of the concrete run. -/
def run0Payment : Payment :=
  { id := 2, booking_id := 1, user_id := 10, amount := 10000,
    currency := "PKR", payment_method := "bank_transfer", gateway := none,
    gateway_transaction_id := none, status := "processing" }

/-- A concrete refund row used to witness the ledger-uniqueness claim. -/
def run0Refund : Refund :=
  { id := 4, booking_id := 1, payment_id := 2, amount := 2500,
    reason := "late cancellation", status := "approved",
    gateway_refund_id := none }

/-- A concrete payout row used to witness the ledger-uniqueness claim. -/
def run0Payout : HostPayout :=
  { id := 3, host_id := 11, booking_id := some 1, amount := 9100,
    currency := "PKR", payout_date := 103, status := "eligible",
    payout_method := none, gateway_transaction_id := none }

/-- Initial world of the concrete run. -/
def runW0 : World :=
  { bookings := [run0Booking], payments := [run0Payment], refunds := [],
    payouts := [], ledger := [], snapshots := [], idemKeys := [],
    nextId := 3 }

/-- Project the world out of a successful step of the concrete run. -/
def stepOk (x : Except DomainError World) : World :=
  match x with
  | .ok w => w
  | .error _ => runW0

/-- After `mark_payment_paid`: payment completed, ledger credit 10000. -/
def runW1 : World := stepOk (markPaymentPaid runW0 2)

/-- After `check_in_booking`. -/
def runW2 : World := stepOk (checkInBooking runW1 1)

/-- After `complete_booking`: pending payout of 9100 (id 3), snapshot. -/
def runW3 : World := stepOk (completeBooking runW2 1)

/-- After `mark_payout_eligible`. -/
def runW4 : World := stepOk (markPayoutEligible runW3 3)

/-- After `release_payout`: ledger debit 9100, under a satisfied release
guard. -/
def runW5 : World := stepOk (releasePayout runW4 3)

/-- After a full `refund_payment` of 10000: ledger debit 10000; the
released payout is flipped to `reversed` with no `payout_reversed` ledger
credit. -/
def runW6 : World := stepOk (refundPayment runW5 2 none "guest complaint")

/-! ## Theorems -/

/-- Characterization of banker's rounding at denominator 10000: the result
is within half a unit of the exact value, and an exact half lands on an
even integer. -/
theorem roundHalfEven_ten_thousand (n : Int) :
    (10000 * roundHalfEven n 10000 - n ≤ 5000 ∧
      n - 10000 * roundHalfEven n 10000 ≤ 5000) ∧
    (n % 10000 = 5000 → roundHalfEven n 10000 % 2 = 0) := by
  simp only [roundHalfEven]
  split_ifs with h1 h2 h3
  all_goals exact ⟨⟨by omega, by omega⟩, fun h => by omega⟩

/-- The commission rate of any string source is 0% or 9%. -/
theorem getCommissionRateStr_cases (s : String) :
    getCommissionRateStr s = 0 ∨ getCommissionRateStr s = 900 := by
  unfold getCommissionRateStr parseBookingSource
  split_ifs <;>
    simp [getCommissionRate, commissionRates, voloCommissionRate]

/-- C4: `calculate_booking_amounts` on the marketplace source with
nightly_rate 10000, nights 3, cleaning_fee 2000 yields subtotal 30000,
total 32000, commission 2880 (9%) and host payout 29120; on the
direct-link source (enum value `DIRECT_LINK`) with the same inputs it
yields commission 0 and host payout 32000. -/
theorem c4_commission_example_amounts :
    ((calculateBookingAmounts "VOLO_MARKETPLACE" 10000 3 2000).subtotal
        = 30000
      ∧ (calculateBookingAmounts "VOLO_MARKETPLACE" 10000 3 2000).total_price
        = 32000
      ∧ (calculateBookingAmounts "VOLO_MARKETPLACE" 10000 3
          2000).commission_amount = 2880
      ∧ (calculateBookingAmounts "VOLO_MARKETPLACE" 10000 3
          2000).host_payout_amount = 29120)
    ∧ ((calculateBookingAmounts "DIRECT_LINK" 10000 3
          2000).commission_amount = 0
      ∧ (calculateBookingAmounts "DIRECT_LINK" 10000 3
          2000).host_payout_amount = 32000) := by
  decide

/-- C5 counterexample: the implementation does NOT round half up. At the
marketplace rate on a total of 50, the exact commission is 4.5;
`calculate_commission` (which rounds via `Decimal.quantize` under the
default ROUND_HALF_EVEN context) returns 4, while the round-half-up value
required by the claim is 5. -/
theorem c5_counterexample_half_rounds_even :
    calculateCommission BookingSource.VOLO_MARKETPLACE 50 = 4
    ∧ roundHalfUpOfSpec
        (getCommissionRate BookingSource.VOLO_MARKETPLACE * 50) 10000 = 5
    ∧ calculateCommission BookingSource.VOLO_MARKETPLACE 50 ≠
        roundHalfUpOfSpec
          (getCommissionRate BookingSource.VOLO_MARKETPLACE * 50) 10000 := by
  decide

/-- C5 (amended): for every source string and non-negative total,
`calculate_commission` returns `total × rate / 100` rounded half-to-even:
it differs from the exact value by at most half a minor unit, and on an
exact half it returns an even integer (the even neighbor, not the upper
one). -/
theorem c5_commission_rounding_half_even (s : String) (t : Int)
    (_ht : 0 ≤ t) :
    (10000 * calculateCommissionStr s t - getCommissionRateStr s * t ≤ 5000
      ∧ getCommissionRateStr s * t - 10000 * calculateCommissionStr s t
        ≤ 5000)
    ∧ ((getCommissionRateStr s * t) % 10000 = 5000 →
        calculateCommissionStr s t % 2 = 0) :=
  roundHalfEven_ten_thousand (getCommissionRateStr s * t)

/-- C5 witness: the amended statement at the marketplace source and total
50 (an exact-half case: the commission is even). -/
theorem c5_commission_rounding_half_even_witness :
    (10000 * calculateCommissionStr "VOLO_MARKETPLACE" 50
        - getCommissionRateStr "VOLO_MARKETPLACE" * 50 ≤ 5000
      ∧ getCommissionRateStr "VOLO_MARKETPLACE" * 50
        - 10000 * calculateCommissionStr "VOLO_MARKETPLACE" 50 ≤ 5000)
    ∧ calculateCommissionStr "VOLO_MARKETPLACE" 50 % 2 = 0 :=
  ⟨(c5_commission_rounding_half_even "VOLO_MARKETPLACE" 50 (by decide)).1,
    (c5_commission_rounding_half_even "VOLO_MARKETPLACE" 50 (by decide)).2
      (by decide)⟩

/-- C10: any source string outside the five recognized `BookingSource`
values gets the full marketplace rate 9.00 (stored as 900 hundredths of a
percent), and its commission on any total equals the marketplace
commission on that total. -/
theorem c10_unknown_source_marketplace_rate (s : String)
    (h : s ∉ ["AIRBNB", "BOOKING_COM", "VOLO_MARKETPLACE", "DIRECT_LINK",
      "DIRECT_WHATSAPP"]) :
    getCommissionRateStr s = 900
    ∧ ∀ t : Int, calculateCommissionStr s t =
        calculateCommission BookingSource.VOLO_MARKETPLACE t := by
  have hp : parseBookingSource s = none := by
    simp only [List.mem_cons, List.not_mem_nil, or_false, not_or] at h
    obtain ⟨h1, h2, h3, h4, h5⟩ := h
    unfold parseBookingSource
    split_ifs <;> simp_all
  constructor
  · unfold getCommissionRateStr
    rw [hp]
    rfl
  · intro t
    unfold calculateCommissionStr calculateCommission getCommissionRateStr
    rw [hp]
    rfl

/-- C10 witness: an unmapped promotional source string is charged like the
marketplace. -/
theorem c10_unknown_source_marketplace_rate_witness :
    getCommissionRateStr "promo-2024" = 900
    ∧ calculateCommissionStr "promo-2024" 32000 =
        calculateCommission BookingSource.VOLO_MARKETPLACE 32000 :=
  ⟨(c10_unknown_source_marketplace_rate "promo-2024" (by decide)).1,
    (c10_unknown_source_marketplace_rate "promo-2024" (by decide)).2 32000⟩

/-- C9: for every policy string (including unknown ones, which default to
moderate) and fixed check-in date, the refund percentage is non-increasing
as the cancellation date moves later. -/
theorem c9_refund_monotone (policy : String) (checkIn d1 d2 : Int)
    (h : d1 ≤ d2) :
    calculateRefundPercentage policy checkIn d2 ≤
      calculateRefundPercentage policy checkIn d1 := by
  unfold calculateRefundPercentage
  cases hp : (parseCancellationPolicy policy).getD .MODERATE <;>
    simp only [policyRules, firstMatchingRule] <;>
    split_ifs <;> omega

/-- C9 witness: under the strict policy, cancelling 5 days before check-in
refunds no more than cancelling 10 days before. -/
theorem c9_refund_monotone_witness :
    calculateRefundPercentage "strict" 100 95 ≤
      calculateRefundPercentage "strict" 100 90 :=
  c9_refund_monotone "strict" 100 90 95 (by decide)

/-- C7: `can_release_payout` returns `(True, None)` exactly when the
payment status is `paid` and the booking status is `completed` or
`checked_in`; in every other case it returns `False` together with an
error message (which the endpoint raises as a `ValidationError`, a domain
validation failure rather than a state-table transition error). -/
theorem c7_release_guard (b p : String) :
    (canReleasePayout b p = (true, none) ↔
      p = "paid" ∧ (b = "completed" ∨ b = "checked_in"))
    ∧ (¬ (p = "paid" ∧ (b = "completed" ∨ b = "checked_in")) →
        ∃ msg, canReleasePayout b p = (false, some msg)) := by
  unfold canReleasePayout
  split_ifs with h1 h2 h3 h4 <;> constructor <;> try simp_all
  all_goals (intro hpaid; subst hpaid; simp_all)

/-- Success of `assert_booking_transition` is exactly membership in the
transition table. -/
theorem assertBookingTransition_ok_iff (c t : String) :
    exceptOk (assertBookingTransition c t) = true ↔
      t ∈ bookingTransitions c := by
  unfold assertBookingTransition
  split_ifs with h <;> simp [exceptOk, h]

/-- Success of `assert_payment_transition` is exactly membership in the
transition table. -/
theorem assertPaymentTransition_ok_iff (c t : String) :
    exceptOk (assertPaymentTransition c t) = true ↔
      t ∈ paymentTransitions c := by
  unfold assertPaymentTransition
  split_ifs with h <;> simp [exceptOk, h]

/-- Success of `assert_payout_transition` is exactly membership in the
transition table. -/
theorem assertPayoutTransition_ok_iff (c t : String) :
    exceptOk (assertPayoutTransition c t) = true ↔
      t ∈ payoutTransitions c := by
  unfold assertPayoutTransition
  split_ifs with h <;> simp [exceptOk, h]

/-- Success of `assert_dispute_transition` is exactly membership in the
transition table. -/
theorem assertDisputeTransition_ok_iff (c t : String) :
    exceptOk (assertDisputeTransition c t) = true ↔
      t ∈ disputeTransitions c := by
  unfold assertDisputeTransition
  split_ifs with h <;> simp [exceptOk, h]

/-- The booking transition table, enumerated as pairs. -/
theorem bookingTransitions_pairs (c t : String) :
    t ∈ bookingTransitions c ↔
      (c, t) ∈ [("pending", "confirmed"), ("pending", "cancelled"),
        ("confirmed", "checked_in"), ("confirmed", "cancelled"),
        ("checked_in", "completed")] := by
  unfold bookingTransitions
  split_ifs with h1 h2 h3 h4 h5 <;> subst_vars <;>
    simp_all [List.mem_cons, Prod.ext_iff]

/-- The payment transition table, enumerated as pairs. -/
theorem paymentTransitions_pairs (c t : String) :
    t ∈ paymentTransitions c ↔
      (c, t) ∈ [("pending", "processing"), ("pending", "completed"),
        ("pending", "failed"), ("processing", "completed"),
        ("processing", "failed"), ("completed", "refunded")] := by
  unfold paymentTransitions
  split_ifs with h1 h2 h3 h4 h5 <;> subst_vars <;>
    simp_all [List.mem_cons, Prod.ext_iff]

/-- The payout transition table, enumerated as pairs. -/
theorem payoutTransitions_pairs (c t : String) :
    t ∈ payoutTransitions c ↔
      (c, t) ∈ [("pending", "eligible"), ("pending", "reversed"),
        ("eligible", "released"), ("eligible", "reversed"),
        ("released", "reversed")] := by
  unfold payoutTransitions
  split_ifs with h1 h2 h3 h4 <;> subst_vars <;>
    simp_all [List.mem_cons, Prod.ext_iff]

/-- The dispute transition table, enumerated as pairs. -/
theorem disputeTransitions_pairs (c t : String) :
    t ∈ disputeTransitions c ↔
      (c, t) ∈ [("opened", "under_review"), ("opened", "resolved"),
        ("under_review", "resolved"), ("under_review", "opened"),
        ("resolved", "reversed")] := by
  unfold disputeTransitions
  split_ifs with h1 h2 h3 h4 <;> subst_vars <;>
    simp_all [List.mem_cons, Prod.ext_iff]

/-- C2: for every entity type and all (current, target) string pairs, the
assert-transition operation succeeds iff the pair is in the fixed
transition table (Booking: pending→{confirmed, cancelled},
confirmed→{checked_in, cancelled}, checked_in→{completed},
completed/cancelled terminal; analogously for Payment, Payout and
Dispute), and otherwise it fails with a `ValidationError` carrying an
"Invalid ... transition" message — the spec's `InvalidTransition`
error — with no side effect (the asserts are pure). -/
theorem c2_transition_closure (c t : String) :
    (exceptOk (assertBookingTransition c t) = true ↔
      (c, t) ∈ [("pending", "confirmed"), ("pending", "cancelled"),
        ("confirmed", "checked_in"), ("confirmed", "cancelled"),
        ("checked_in", "completed")])
    ∧ (exceptOk (assertPaymentTransition c t) = true ↔
      (c, t) ∈ [("pending", "processing"), ("pending", "completed"),
        ("pending", "failed"), ("processing", "completed"),
        ("processing", "failed"), ("completed", "refunded")])
    ∧ (exceptOk (assertPayoutTransition c t) = true ↔
      (c, t) ∈ [("pending", "eligible"), ("pending", "reversed"),
        ("eligible", "released"), ("eligible", "reversed"),
        ("released", "reversed")])
    ∧ (exceptOk (assertDisputeTransition c t) = true ↔
      (c, t) ∈ [("opened", "under_review"), ("opened", "resolved"),
        ("under_review", "resolved"), ("under_review", "opened"),
        ("resolved", "reversed")])
    ∧ (exceptOk (assertBookingTransition c t) = false →
        assertBookingTransition c t = .error (.validationError
          ("Invalid booking transition: " ++ c ++ " → " ++ t)))
    ∧ (exceptOk (assertPaymentTransition c t) = false →
        assertPaymentTransition c t = .error (.validationError
          ("Invalid payment transition: " ++ c ++ " → " ++ t)))
    ∧ (exceptOk (assertPayoutTransition c t) = false →
        assertPayoutTransition c t = .error (.validationError
          ("Invalid payout transition: " ++ c ++ " → " ++ t)))
    ∧ (exceptOk (assertDisputeTransition c t) = false →
        assertDisputeTransition c t = .error (.validationError
          ("Invalid dispute transition: " ++ c ++ " → " ++ t))) := by
  refine ⟨(assertBookingTransition_ok_iff c t).trans
      (bookingTransitions_pairs c t),
    (assertPaymentTransition_ok_iff c t).trans
      (paymentTransitions_pairs c t),
    (assertPayoutTransition_ok_iff c t).trans
      (payoutTransitions_pairs c t),
    (assertDisputeTransition_ok_iff c t).trans
      (disputeTransitions_pairs c t), ?_, ?_, ?_, ?_⟩ <;>
    intro h
  · unfold assertBookingTransition at *
    split_ifs at * <;> simp_all [exceptOk]
  · unfold assertPaymentTransition at *
    split_ifs at * <;> simp_all [exceptOk]
  · unfold assertPayoutTransition at *
    split_ifs at * <;> simp_all [exceptOk]
  · unfold assertDisputeTransition at *
    split_ifs at * <;> simp_all [exceptOk]

/-- C2 witness: a legal and an illegal booking transition, concretely. -/
theorem c2_transition_closure_witness :
    exceptOk (assertBookingTransition "pending" "confirmed") = true
    ∧ assertBookingTransition "completed" "confirmed" =
        .error (.validationError
          "Invalid booking transition: completed → confirmed") :=
  ⟨(c2_transition_closure "pending" "confirmed").1.mpr (by decide),
    (c2_transition_closure "completed"
      "confirmed").2.2.2.2.1 (by decide)⟩

/-- Successful `record_payment_received`: no matching entry existed, and
exactly one new entry matching the duplicate-guard predicate, carrying the
payment's amount, was appended. -/
theorem recordPaymentReceived_ok_shape (db db2 : List SettlementLedgerEntry)
    (pm : Payment) (bk : Booking)
    (h : recordPaymentReceived db pm bk = .ok db2) :
    db.find? (isPaymentReceivedFor pm.id) = none ∧
      ∃ e, db2 = e :: db ∧ isPaymentReceivedFor pm.id e = true ∧
        e.amount = pm.amount := by
  unfold recordPaymentReceived at h
  split at h
  · cases h
  · split at h
    · cases h
    next heq =>
      unfold assertNoDuplicateLedgerEntry at heq
      split at heq
      · cases heq
      next hfind =>
        cases h
        exact ⟨hfind, _, rfl, by simp [isPaymentReceivedFor], rfl⟩

/-- Successful `record_refund_issued`: same shape as above. -/
theorem recordRefundIssued_ok_shape (db db2 : List SettlementLedgerEntry)
    (rf : Refund) (bk : Booking) (pm : Payment)
    (h : recordRefundIssued db rf bk pm = .ok db2) :
    db.find? (isRefundIssuedFor rf.id) = none ∧
      ∃ e, db2 = e :: db ∧ isRefundIssuedFor rf.id e = true ∧
        e.amount = rf.amount := by
  unfold recordRefundIssued at h
  split at h
  · cases h
  · split at h
    · cases h
    next heq =>
      unfold assertNoDuplicateLedgerEntry at heq
      split at heq
      · cases heq
      next hfind =>
        cases h
        exact ⟨hfind, _, rfl, by simp [isRefundIssuedFor], rfl⟩

/-- Successful `record_payout_released`: same shape as above. -/
theorem recordPayoutReleased_ok_shape (db db2 : List SettlementLedgerEntry)
    (po : HostPayout) (bk : Option Booking)
    (h : recordPayoutReleased db po bk = .ok db2) :
    db.find? (isPayoutReleasedFor po.id) = none ∧
      ∃ e, db2 = e :: db ∧ isPayoutReleasedFor po.id e = true ∧
        e.amount = po.amount := by
  unfold recordPayoutReleased at h
  split at h
  · cases h
  · split at h
    · cases h
    next heq =>
      unfold assertNoDuplicateLedgerEntry at heq
      split at heq
      · cases heq
      next hfind =>
        cases h
        exact ⟨hfind, _, rfl, by simp [isPayoutReleasedFor], rfl⟩

/-- Successful `record_payout_reversed`: same shape as above. -/
theorem recordPayoutReversed_ok_shape (db db2 : List SettlementLedgerEntry)
    (po : HostPayout) (bk : Option Booking)
    (h : recordPayoutReversed db po bk = .ok db2) :
    db.find? (isPayoutReversedFor po.id) = none ∧
      ∃ e, db2 = e :: db ∧ isPayoutReversedFor po.id e = true ∧
        e.amount = po.amount := by
  unfold recordPayoutReversed at h
  split at h
  · cases h
  · split at h
    · cases h
    next heq =>
      unfold assertNoDuplicateLedgerEntry at heq
      split at heq
      · cases heq
      next hfind =>
        cases h
        exact ⟨hfind, _, rfl, by simp [isPayoutReversedFor], rfl⟩

/-- A record step of the guarded-append shape fails whenever a matching
entry already exists. -/
theorem record_step_rejects_duplicate
    (step : List SettlementLedgerEntry →
      Except DomainError (List SettlementLedgerEntry))
    (p : SettlementLedgerEntry → Bool) (A : Int)
    (hstep : ∀ db db2, step db = .ok db2 →
      db.find? p = none ∧ ∃ e, db2 = e :: db ∧ p e = true ∧ e.amount = A)
    (db : List SettlementLedgerEntry) (hdup : db.countP p ≠ 0) :
    exceptOk (step db) = false := by
  cases hs : step db with
  | error e => rfl
  | ok db2 =>
    obtain ⟨hfind, -⟩ := hstep db db2 hs
    have hzero : db.countP p = 0 := by
      rw [List.countP_eq_zero]
      intro a ha
      have := List.find?_eq_none.mp hfind a ha
      simp_all
    exact absurd hzero hdup

/-- Iterating a record step of the guarded-append shape preserves "at most
one matching entry, and if exactly one then its amount is the single
entry's amount". -/
theorem iterateRecord_at_most_one
    (step : List SettlementLedgerEntry →
      Except DomainError (List SettlementLedgerEntry))
    (p : SettlementLedgerEntry → Bool) (A : Int)
    (hstep : ∀ db db2, step db = .ok db2 →
      db.find? p = none ∧ ∃ e, db2 = e :: db ∧ p e = true ∧ e.amount = A) :
    ∀ (n : Nat) (db : List SettlementLedgerEntry),
      db.countP p ≤ 1 ∧ (db.countP p = 1 → ledgerSumBy db p = A) →
      (iterateRecord step n db).countP p ≤ 1 ∧
        ((iterateRecord step n db).countP p = 1 →
          ledgerSumBy (iterateRecord step n db) p = A) := by
  intro n
  induction n with
  | zero => intro db hdb; exact hdb
  | succ k ih =>
    intro db hdb
    unfold iterateRecord
    cases hs : step db with
    | error e => exact ih db hdb
    | ok db2 =>
      apply ih
      obtain ⟨hfind, e, rfl, hpe, hA⟩ := hstep db db2 hs
      have hcnt0 : db.countP p = 0 := by
        rw [List.countP_eq_zero]
        intro a ha
        have := List.find?_eq_none.mp hfind a ha
        simp_all
      have hfilter : db.filter p = [] := by
        have hl : (db.filter p).length = 0 := by
          rw [← List.countP_eq_length_filter]
          exact hcnt0
        exact List.length_eq_zero.mp hl
      constructor
      · simp [List.countP_cons, hpe, hcnt0]
      · intro _
        simp [ledgerSumBy, List.filter_cons, hpe, hfilter, hA]

/-- C1: for each ledger entry type keyed on its source reference
(payment_received on payment_id, refund_issued on refund_id,
payout_released and payout_reversed on payout_id), the record operation
rejects a non-positive amount, raises without appending when an entry of
that type already exists for the reference, and therefore after any number
of record attempts for the same reference at most one matching entry
exists, whose amount — when it exists — is the single entry's amount. -/
theorem c1_no_double_settlement (n : Nat)
    (db : List SettlementLedgerEntry) (pm : Payment) (bk : Booking)
    (rf : Refund) (po : HostPayout) :
    ((pm.amount ≤ 0 → exceptOk (recordPaymentReceived db pm bk) = false)
      ∧ (ledgerCountBy db (isPaymentReceivedFor pm.id) ≠ 0 →
          exceptOk (recordPaymentReceived db pm bk) = false)
      ∧ (ledgerCountBy db (isPaymentReceivedFor pm.id) = 0 →
          ledgerCountBy
              (iterateRecord (fun l => recordPaymentReceived l pm bk) n db)
              (isPaymentReceivedFor pm.id) ≤ 1
            ∧ (ledgerCountBy
                  (iterateRecord (fun l => recordPaymentReceived l pm bk)
                    n db) (isPaymentReceivedFor pm.id) = 1 →
                ledgerSumBy
                  (iterateRecord (fun l => recordPaymentReceived l pm bk)
                    n db) (isPaymentReceivedFor pm.id) = pm.amount)))
    ∧ ((rf.amount ≤ 0 → exceptOk (recordRefundIssued db rf bk pm) = false)
      ∧ (ledgerCountBy db (isRefundIssuedFor rf.id) ≠ 0 →
          exceptOk (recordRefundIssued db rf bk pm) = false)
      ∧ (ledgerCountBy db (isRefundIssuedFor rf.id) = 0 →
          ledgerCountBy
              (iterateRecord (fun l => recordRefundIssued l rf bk pm) n db)
              (isRefundIssuedFor rf.id) ≤ 1
            ∧ (ledgerCountBy
                  (iterateRecord (fun l => recordRefundIssued l rf bk pm)
                    n db) (isRefundIssuedFor rf.id) = 1 →
                ledgerSumBy
                  (iterateRecord (fun l => recordRefundIssued l rf bk pm)
                    n db) (isRefundIssuedFor rf.id) = rf.amount)))
    ∧ ((po.amount ≤ 0 →
          exceptOk (recordPayoutReleased db po (some bk)) = false)
      ∧ (ledgerCountBy db (isPayoutReleasedFor po.id) ≠ 0 →
          exceptOk (recordPayoutReleased db po (some bk)) = false)
      ∧ (ledgerCountBy db (isPayoutReleasedFor po.id) = 0 →
          ledgerCountBy
              (iterateRecord (fun l => recordPayoutReleased l po (some bk))
                n db) (isPayoutReleasedFor po.id) ≤ 1
            ∧ (ledgerCountBy
                  (iterateRecord
                    (fun l => recordPayoutReleased l po (some bk)) n db)
                  (isPayoutReleasedFor po.id) = 1 →
                ledgerSumBy
                  (iterateRecord
                    (fun l => recordPayoutReleased l po (some bk)) n db)
                  (isPayoutReleasedFor po.id) = po.amount)))
    ∧ ((po.amount ≤ 0 →
          exceptOk (recordPayoutReversed db po (some bk)) = false)
      ∧ (ledgerCountBy db (isPayoutReversedFor po.id) ≠ 0 →
          exceptOk (recordPayoutReversed db po (some bk)) = false)
      ∧ (ledgerCountBy db (isPayoutReversedFor po.id) = 0 →
          ledgerCountBy
              (iterateRecord (fun l => recordPayoutReversed l po (some bk))
                n db) (isPayoutReversedFor po.id) ≤ 1
            ∧ (ledgerCountBy
                  (iterateRecord
                    (fun l => recordPayoutReversed l po (some bk)) n db)
                  (isPayoutReversedFor po.id) = 1 →
                ledgerSumBy
                  (iterateRecord
                    (fun l => recordPayoutReversed l po (some bk)) n db)
                  (isPayoutReversedFor po.id) = po.amount))) := by
  refine ⟨⟨?_, ?_, ?_⟩, ⟨?_, ?_, ?_⟩, ⟨?_, ?_, ?_⟩, ⟨?_, ?_, ?_⟩⟩
  · intro hle
    unfold recordPaymentReceived assertPositiveAmount
    rw [if_pos hle]
    rfl
  · intro hdup
    exact record_step_rejects_duplicate _ _ pm.amount
      (fun l l2 hok => recordPaymentReceived_ok_shape l l2 pm bk hok) db hdup
  · intro hzero
    exact iterateRecord_at_most_one _ _ pm.amount
      (fun l l2 hok => recordPaymentReceived_ok_shape l l2 pm bk hok) n db
      ⟨by unfold ledgerCountBy at hzero; omega,
        fun hone => absurd (hzero.symm.trans hone) (by decide)⟩
  · intro hle
    unfold recordRefundIssued assertPositiveAmount
    rw [if_pos hle]
    rfl
  · intro hdup
    exact record_step_rejects_duplicate _ _ rf.amount
      (fun l l2 hok => recordRefundIssued_ok_shape l l2 rf bk pm hok) db hdup
  · intro hzero
    exact iterateRecord_at_most_one _ _ rf.amount
      (fun l l2 hok => recordRefundIssued_ok_shape l l2 rf bk pm hok) n db
      ⟨by unfold ledgerCountBy at hzero; omega,
        fun hone => absurd (hzero.symm.trans hone) (by decide)⟩
  · intro hle
    unfold recordPayoutReleased assertPositiveAmount
    rw [if_pos hle]
    rfl
  · intro hdup
    exact record_step_rejects_duplicate _ _ po.amount
      (fun l l2 hok => recordPayoutReleased_ok_shape l l2 po (some bk) hok)
      db hdup
  · intro hzero
    exact iterateRecord_at_most_one _ _ po.amount
      (fun l l2 hok => recordPayoutReleased_ok_shape l l2 po (some bk) hok)
      n db
      ⟨by unfold ledgerCountBy at hzero; omega,
        fun hone => absurd (hzero.symm.trans hone) (by decide)⟩
  · intro hle
    unfold recordPayoutReversed assertPositiveAmount
    rw [if_pos hle]
    rfl
  · intro hdup
    exact record_step_rejects_duplicate _ _ po.amount
      (fun l l2 hok => recordPayoutReversed_ok_shape l l2 po (some bk) hok)
      db hdup
  · intro hzero
    exact iterateRecord_at_most_one _ _ po.amount
      (fun l l2 hok => recordPayoutReversed_ok_shape l l2 po (some bk) hok)
      n db
      ⟨by unfold ledgerCountBy at hzero; omega,
        fun hone => absurd (hzero.symm.trans hone) (by decide)⟩

/-- C1 witness: three successive `record_payment_received` attempts for
the same payment on an empty ledger leave exactly one matching entry whose
amount is the payment's. -/
theorem c1_no_double_settlement_witness :
    ledgerCountBy
        (iterateRecord
          (fun l => recordPaymentReceived l run0Payment run0Booking) 3 [])
        (isPaymentReceivedFor run0Payment.id) = 1
    ∧ ledgerSumBy
        (iterateRecord
          (fun l => recordPaymentReceived l run0Payment run0Booking) 3 [])
        (isPaymentReceivedFor run0Payment.id) = run0Payment.amount := by
  have h := (c1_no_double_settlement 3 [] run0Payment run0Booking
    run0Refund run0Payout).1.2.2 (by decide)
  exact ⟨by decide, h.2 (by decide)⟩

/-- Finding a selected element in an update-in-place list: the update is
applied to the found element, provided updating preserves selection. -/
theorem find?_updateWhere {α : Type} (sel : α → Bool) (f : α → α)
    (l : List α) (hf : ∀ a, sel (f a) = sel a) :
    (updateWhere sel f l).find? sel = (l.find? sel).map f := by
  induction l with
  | nil => rfl
  | cons a l ih =>
    simp only [updateWhere, List.map_cons] at ih ⊢
    cases hsa : sel a with
    | false =>
      rw [if_neg (by simp [hsa]), List.find?_cons_of_neg _ (by simp [hsa]),
        List.find?_cons_of_neg _ (by simp [hsa])]
      exact ih
    | true =>
      rw [if_pos (by simp [hsa]),
        List.find?_cons_of_pos _ (by simp [hf, hsa]),
        List.find?_cons_of_pos _ (by simp [hsa])]
      rfl

/-- Membership in an update-in-place list: either the updated image of a
selected element, or an untouched unselected element. -/
theorem mem_updateWhere {α : Type} (sel : α → Bool) (f : α → α)
    (l : List α) (b : α) (hb : b ∈ updateWhere sel f l) :
    (∃ a ∈ l, sel a = true ∧ b = f a) ∨ (b ∈ l ∧ sel b = false) := by
  simp only [updateWhere, List.mem_map] at hb
  obtain ⟨a, ha, hba⟩ := hb
  cases hsa : sel a with
  | true => exact Or.inl ⟨a, ha, hsa, by rw [← hba, if_pos hsa]⟩
  | false =>
    refine Or.inr ?_
    have hba2 : b = a := by rw [← hba, if_neg (by simp [hsa])]
    rw [hba2]
    exact ⟨ha, hsa⟩

/-- A booking can transition to `completed` only from `checked_in`. -/
theorem completed_only_from_checked_in (s : String) :
    "completed" ∈ bookingTransitions s ↔ s = "checked_in" := by
  unfold bookingTransitions
  split_ifs <;> simp_all

/-- A payment can transition to `completed` only from `pending` or
`processing`. -/
theorem payment_completed_sources (s : String) :
    "completed" ∈ paymentTransitions s ↔
      s = "pending" ∨ s = "processing" := by
  unfold paymentTransitions
  split_ifs <;> simp_all

/-- No entry matches a predicate whose `find?` comes up empty. -/
theorem countP_eq_zero_of_find?_none {α : Type} (p : α → Bool) (l : List α)
    (h : l.find? p = none) : l.countP p = 0 := by
  rw [List.countP_eq_zero]
  intro a ha
  have := List.find?_eq_none.mp h a ha
  simp_all

/-- C3: a successful `complete_booking` starts from a `checked_in`
booking with no snapshot, creates exactly one snapshot row for it, and a
second `complete_booking` on the resulting state fails with the
`InvalidTransition`-class error "Invalid booking transition: completed →
completed" before reaching the snapshot step; moreover
`create_booking_snapshot` itself fails whenever a snapshot already exists
for the booking. -/
theorem c3_snapshot_singularity (w : World) (bid : Nat) (w2 : World)
    (h : completeBooking w bid = .ok w2) :
    (∃ b, w.bookings.find? (fun x => x.id == bid) = some b ∧
        b.status = "checked_in")
    ∧ snapshotCount w.snapshots bid = 0
    ∧ snapshotCount w2.snapshots bid = 1
    ∧ completeBooking w2 bid = .error (.validationError
        "Invalid booking transition: completed → completed")
    ∧ ∀ (snaps : List BookingFinancialSnapshot) (b : Booking),
        (snaps.find? (fun s => s.booking_id == b.id)).isSome →
          exceptOk (createBookingSnapshot snaps b) = false := by
  simp only [completeBooking] at h
  split at h
  · cases h
  next booking hfind =>
    split at h
    · cases h
    next hassert =>
      have hok : exceptOk (assertBookingTransition booking.status
          "completed") = true := by rw [hassert]; rfl
      have hst : booking.status = "checked_in" :=
        (completed_only_from_checked_in booking.status).mp
          ((assertBookingTransition_ok_iff booking.status "completed").mp hok)
      have hid : booking.id = bid := by
        have := List.find?_some hfind
        simp_all
      split at h
      · cases h
      next snap hsnap =>
        have hnone : w.snapshots.find?
            (fun s => s.booking_id == booking.id) = none := by
          by_cases hx : (w.snapshots.find?
              (fun s => s.booking_id == booking.id)).isSome
          · unfold createBookingSnapshot at hsnap
            rw [if_pos hx] at hsnap
            cases hsnap
          · exact Option.not_isSome_iff_eq_none.mp hx
        unfold createBookingSnapshot at hsnap
        rw [if_neg (by rw [hnone]; simp)] at hsnap
        cases hsnap
        cases h
        have h0 : w.snapshots.countP (fun s => s.booking_id == bid) = 0 := by
          rw [← hid]
          exact countP_eq_zero_of_find?_none _ _ hnone
        refine ⟨⟨booking, hfind, hst⟩, ?_, ?_, ?_, ?_⟩
        · exact h0
        · unfold snapshotCount
          rw [List.countP_cons]
          have h1 : ((createBookingSnapshotRow
              { booking with status := "completed" }).booking_id == bid)
                = true := by
            simp [createBookingSnapshotRow, hid]
          rw [h1]
          simp [h0]
        · have hfind2 : (updateWhere (fun b => b.id == bid)
              (fun b => { b with status := "completed" })
              w.bookings).find? (fun b => b.id == bid) =
                some { booking with status := "completed" } := by
            rw [find?_updateWhere (fun b => b.id == bid)
              (fun b => { b with status := "completed" })
              w.bookings (fun a => rfl), hfind]
            rfl
          show completeBooking _ bid = _
          simp only [completeBooking]
          rw [hfind2]
          rfl
        · intro snaps b hx
          unfold createBookingSnapshot
          rw [if_pos hx]
          rfl

/-- C3 witness: completing the checked-in booking of the concrete run
creates its single snapshot, and completing it again fails. -/
theorem c3_snapshot_singularity_witness :
    snapshotCount runW3.snapshots 1 = 1
    ∧ completeBooking runW3 1 = .error (.validationError
        "Invalid booking transition: completed → completed") :=
  ⟨(c3_snapshot_singularity runW2 1 runW3 rfl).2.2.1,
    (c3_snapshot_singularity runW2 1 runW3 rfl).2.2.2.1⟩

/-- C8: a successful `mark_payment_paid` starts from a pending or
processing payment with no `payment_received` ledger entry, performs the
single transition to `completed`, appends exactly one `payment_received`
credit entry for the payment's amount, and a second call on the resulting
state fails with `DuplicateOperation` from the idempotency-key check —
which runs before any mutation, so the failed replay leaves payment,
booking and ledger untouched. -/
theorem c8_mark_paid_idempotent (w : World) (pid : Nat) (w2 : World)
    (h : markPaymentPaid w pid = .ok w2) :
    (∃ p, w.payments.find? (fun q => q.id == pid) = some p
      ∧ (p.status = "pending" ∨ p.status = "processing")
      ∧ ∃ e, w2.ledger = e :: w.ledger
          ∧ isPaymentReceivedFor pid e = true
          ∧ e.amount = p.amount ∧ e.direction = "credit")
    ∧ (∀ p2 ∈ w2.payments, p2.id = pid → p2.status = "completed")
    ∧ ledgerCountBy w.ledger (isPaymentReceivedFor pid) = 0
    ∧ ledgerCountBy w2.ledger (isPaymentReceivedFor pid) = 1
    ∧ markPaymentPaid w2 pid = .error
        (.duplicateOperation "payment_mark_paid" (toString pid)) := by
  simp only [markPaymentPaid] at h
  split at h
  · cases h
  next hidem =>
    split at h
    · cases h
    next payment hfindp =>
      split at h
      · cases h
      next hassert =>
        have hok : exceptOk (assertPaymentTransition payment.status
            "completed") = true := by rw [hassert]; rfl
        have hst : payment.status = "pending" ∨
            payment.status = "processing" :=
          (payment_completed_sources payment.status).mp
            ((assertPaymentTransition_ok_iff payment.status "completed").mp
              hok)
        have hpid : payment.id = pid := by
          have := List.find?_some hfindp
          simp_all
        split at h
        · cases h
        next booking hfindb =>
          split at h
          · cases h
          next hcanc =>
            split at h
            · cases h
            next ledger2 hrec =>
              unfold recordPaymentReceived at hrec
              split at hrec
              · cases hrec
              · split at hrec
                · cases hrec
                next heq =>
                  unfold assertNoDuplicateLedgerEntry at heq
                  split at heq
                  · cases heq
                  next hfindl =>
                    cases hrec
                    cases h
                    have hcnt0 : ledgerCountBy w.ledger
                        (isPaymentReceivedFor pid) = 0 := by
                      unfold ledgerCountBy
                      rw [← hpid]
                      exact countP_eq_zero_of_find?_none _ _ hfindl
                    refine ⟨⟨payment, hfindp, hst, _, rfl,
                        by simp [isPaymentReceivedFor, hpid], rfl, rfl⟩,
                      ?_, hcnt0, ?_, ?_⟩
                    · intro p2 hp2 hid2
                      rcases mem_updateWhere _ _ _ _ hp2 with
                        ⟨a, _, _, rfl⟩ | ⟨_, hsel⟩
                      · rfl
                      · rw [hid2] at hsel
                        simp at hsel
                    · show List.countP _ (_ :: w.ledger) = 1
                      rw [List.countP_cons]
                      have hpe : isPaymentReceivedFor pid
                          { entry_type := "payment_received"
                            direction := "credit"
                            amount := payment.amount
                            currency := payment.currency
                            booking_id := some booking.id
                            payment_id := some payment.id
                            refund_id := none
                            payout_id := none
                            counterparty_type := "guest"
                            counterparty_id := some payment.user_id
                            gateway := payment.gateway
                            gateway_transaction_id :=
                              payment.gateway_transaction_id
                            description := "Payment for booking "
                              ++ booking.booking_number } = true := by
                        simp [isPaymentReceivedFor, hpid]
                      rw [hpe]
                      unfold ledgerCountBy at hcnt0
                      simp [hcnt0]
                    · have hmem : generateIdempotencyKey "payment_mark_paid"
                          pid [] ∈
                            generateIdempotencyKey "payment_mark_paid" pid
                              [] :: w.idemKeys :=
                        List.mem_cons_self _ _
                      simp only [markPaymentPaid]
                      rw [if_pos hmem]

/-- C8 witness: the concrete run's `mark_payment_paid` leaves one
`payment_received` entry and its replay is rejected as a duplicate. -/
theorem c8_mark_paid_idempotent_witness :
    ledgerCountBy runW1.ledger (isPaymentReceivedFor 2) = 1
    ∧ markPaymentPaid runW1 2 = .error
        (.duplicateOperation "payment_mark_paid" "2") :=
  ⟨(c8_mark_paid_idempotent runW0 2 runW1 rfl).2.2.2.1,
    (c8_mark_paid_idempotent runW0 2 runW1 rfl).2.2.2.2⟩

/-- C6 refutation by a concrete run: a sequence of valid core operations —
payment recorded before its refund and payout, the refund (10000) bounded
by the originating payment (10000), and the payout released only under a
satisfied release guard — after which the settlement ledger's net position
Σcredits − Σdebits is −9100 < 0. The full refund flips the released payout
to `reversed` without recording the `payout_reversed` clawback credit, and
`reverse_payout` can then never record it because the `reversed → reversed`
transition is invalid, so `check_ledger_balance` reports the ledger
unbalanced. -/
theorem c6_valid_sequence_negative_ledger :
    markPaymentPaid runW0 2 = .ok runW1
    ∧ checkInBooking runW1 1 = .ok runW2
    ∧ completeBooking runW2 1 = .ok runW3
    ∧ markPayoutEligible runW3 3 = .ok runW4
    ∧ releasePayout runW4 3 = .ok runW5
    ∧ refundPayment runW5 2 none "guest complaint" = .ok runW6
    ∧ (runW4.bookings.find? (fun b => b.id == 1)).map
        (fun b => canReleasePayout b.status b.payment_status) =
          some (true, none)
    ∧ refundSumFor runW6.refunds 2 = 10000
    ∧ run0Payment.amount = 10000
    ∧ checkLedgerBalance runW6.ledger = (false, -9100)
    ∧ (runW6.payouts.find? (fun po => po.id == 3)).map HostPayout.status =
        some "reversed"
    ∧ ledgerCountBy runW6.ledger (isPayoutReversedFor 3) = 0
    ∧ reversePayout runW6 3 = .error (.validationError
        "Invalid payout transition: reversed → reversed") :=
  ⟨rfl, rfl, rfl, rfl, rfl, rfl, rfl, rfl, rfl, rfl, rfl, rfl, rfl⟩

/-- C7 witness: the guard passes for a completed, paid booking and fails
with a message for a cancelled one. -/
theorem c7_release_guard_witness :
    canReleasePayout "completed" "paid" = (true, none)
    ∧ ∃ msg, canReleasePayout "cancelled" "paid" = (false, some msg) :=
  ⟨(c7_release_guard "completed" "paid").1.mpr ⟨rfl, Or.inl rfl⟩,
    (c7_release_guard "cancelled" "paid").2 (by decide)⟩

end Volo
